import Mathlib

/-!
Verification of the Context Vault backend (`src/main.py`), a FastAPI facade
over a Supabase PostgREST table.  The handlers are shallowly embedded as pure
Lean functions: the outbound HTTP call becomes an oracle parameter (a function
from the forwarded payload, resp. the constructed URL, to the upstream
result), the `datetime.utcnow()` clock becomes an explicit `DateTime`
argument, and Python exception flow becomes `Except` values threaded through
the translated `try`/`except` structure of each handler.
-/

/-- JSON values, the shape of request/response bodies passed through the
service.  Numbers are modelled as integers: no claim depends on numeric
semantics beyond structural identity. -/
inductive Json where
  | null : Json
  | bool (b : Bool) : Json
  | num (n : Int) : Json
  | str (s : String) : Json
  | arr (xs : List Json) : Json
  | obj (fields : List (String × Json)) : Json

/-- Look up a key in a JSON-object field list (first match wins; the payloads
built by this service have pairwise-distinct keys). -/
def lookupField (k : String) : List (String × Json) → Option Json
  | [] => none
  | (k', v) :: rest => if k' = k then some v else lookupField k rest

/-- The parsed request body of `POST /vault/save` (pydantic model
`ContextData` in `src/main.py`): pydantic drops unknown fields, so a
caller-supplied `created_at` never reaches the handler. -/
structure ContextData where
  user_id : String
  context_type : String
  context_data : List (String × Json)
  metadata : Option (List (String × Json))

/-- A naive UTC datetime as produced by `datetime.utcnow()`. -/
structure DateTime where
  year : Nat
  month : Nat
  day : Nat
  hour : Nat
  minute : Nat
  second : Nat
  microsecond : Nat

/-- Field ranges guaranteed for any value `datetime.utcnow()` can return
(Python caps years at 9999). -/
def ValidDateTime (t : DateTime) : Prop :=
  0 < t.year ∧ t.year ≤ 9999 ∧ 1 ≤ t.month ∧ t.month ≤ 12 ∧
  1 ≤ t.day ∧ t.day ≤ 31 ∧ t.hour ≤ 23 ∧ t.minute ≤ 59 ∧
  t.second ≤ 59 ∧ t.microsecond < 1000000

/-- The decimal digit character for `d % 10`. -/
def digitChar (d : Nat) : Char := Char.ofNat (48 + d % 10)

/-- Two-digit zero-padded decimal rendering (`%02d` for values below 100). -/
def pad2 (n : Nat) : List Char := [digitChar (n / 10), digitChar n]

/-- Four-digit zero-padded decimal rendering (`%04d` for values below 10000). -/
def pad4 (n : Nat) : List Char :=
  [digitChar (n / 1000), digitChar (n / 100), digitChar (n / 10), digitChar n]

/-- Six-digit zero-padded decimal rendering (`%06d` for values below 10^6). -/
def pad6 (n : Nat) : List Char :=
  [digitChar (n / 100000), digitChar (n / 10000), digitChar (n / 1000),
   digitChar (n / 100), digitChar (n / 10), digitChar n]

/-- Python's `datetime.isoformat()` on a naive datetime with in-range fields:
`YYYY-MM-DDTHH:MM:SS`, with `.ffffff` appended exactly when the microsecond
component is nonzero. -/
def isoformat (t : DateTime) : String :=
  ⟨pad4 t.year ++ '-' :: pad2 t.month ++ '-' :: pad2 t.day ++
   'T' :: pad2 t.hour ++ ':' :: pad2 t.minute ++ ':' :: pad2 t.second ++
   (if t.microsecond = 0 then [] else '.' :: pad6 t.microsecond)⟩

/-- All characters in the list are decimal digits. -/
def allDigits : List Char → Bool
  | [] => true
  | c :: cs => c.isDigit && allDigits cs

/-- Shape check for an ISO-8601 naive timestamp:
`YYYY-MM-DDTHH:MM:SS` optionally followed by `.ffffff`. -/
def isoShape : List Char → Bool
  | [y1, y2, y3, y4, s1, m1, m2, s2, d1, d2, t, h1, h2, c1, n1, n2, c2, e1, e2] =>
      allDigits [y1, y2, y3, y4, m1, m2, d1, d2, h1, h2, n1, n2, e1, e2] &&
      s1 = '-' && s2 = '-' && t = 'T' && c1 = ':' && c2 = ':'
  | [y1, y2, y3, y4, s1, m1, m2, s2, d1, d2, t, h1, h2, c1, n1, n2, c2, e1, e2,
     dot, u1, u2, u3, u4, u5, u6] =>
      allDigits [y1, y2, y3, y4, m1, m2, d1, d2, h1, h2, n1, n2, e1, e2,
                 u1, u2, u3, u4, u5, u6] &&
      s1 = '-' && s2 = '-' && t = 'T' && c1 = ':' && c2 = ':' && dot = '.'
  | _ => false

/-- A string is a well-formed ISO-8601 naive UTC timestamp. -/
def isIso8601 (s : String) : Bool := isoShape s.data

/-- The payload `save_context` forwards to the upstream store
(`src/main.py` lines 70-76): the three caller fields, `metadata` with the
Python `or {}` null/empty substitution, and a service-stamped `created_at`. -/
def buildSavePayload (now : DateTime) (context : ContextData) :
    List (String × Json) :=
  [("user_id", Json.str context.user_id),
   ("context_type", Json.str context.context_type),
   ("context_data", Json.obj context.context_data),
   ("metadata", Json.obj (match context.metadata with
     | none => []
     | some m => if m.isEmpty then [] else m)),
   ("created_at", Json.str (isoformat now))]

/-- The observable outcome of one upstream HTTP call: `status` and raw body
`text` as in an `httpx.Response`; `body` models the result of
`response.json()` — `some` the parsed JSON value when `text` is valid JSON,
`none` when parsing would raise. -/
structure UpstreamResponse where
  status : Nat
  text : String
  body : Option Json

/-- The Python exceptions that can arise inside the handlers' `try` blocks. -/
inductive PyExc where
  | httpError (msg : String) : PyExc
  | httpException (status_code : Nat) (detail : String) : PyExc
  | indexError (msg : String) : PyExc
  | typeError (msg : String) : PyExc
  | jsonError (msg : String) : PyExc

/-- Python `str(e)` for the modelled exceptions; Starlette's `HTTPException`
renders as `"<status_code>: <detail>"`. -/
def strExc : PyExc → String
  | .httpError m => m
  | .httpException s d => toString s ++ ": " ++ d
  | .indexError m => m
  | .typeError m => m
  | .jsonError m => m

/-- The error response a handler ultimately raises to the caller
(`fastapi.HTTPException` escaping the handler). -/
structure HTTPException where
  status_code : Nat
  detail : String
deriving DecidableEq

/-- Success envelope of `POST /vault/save`. -/
structure SaveEnvelope where
  success : Bool
  message : String
  data : Json

/-- Success envelope of `GET /vault/context`. -/
structure QueryEnvelope where
  success : Bool
  count : Nat
  data : Json

/-- Body of the `try` block of `save_context` (`src/main.py` lines 61-95).
`net` is the network oracle: applied to the forwarded payload it yields
either an `httpx` transport error message or the upstream response. -/
def saveTry (now : DateTime) (context : ContextData)
    (net : List (String × Json) → Except String UpstreamResponse) :
    Except PyExc SaveEnvelope :=
  match net (buildSavePayload now context) with
  | .error m => .error (.httpError m)
  | .ok response =>
    if response.status = 200 ∨ response.status = 201 then
      match response.body with
      | none => .error (.jsonError "Expecting value")
      | some result =>
        match result with
        | .arr [] => .error (.indexError "list index out of range")
        | .arr (x :: _) => .ok ⟨true, "Context saved successfully", x⟩
        | _ => .ok ⟨true, "Context saved successfully", result⟩
    else
      .error (.httpException response.status
        ("Failed to save context: " ++ response.text))

/-- The `save_context` handler (`src/main.py` lines 50-100): the `try` body
followed by the two `except` clauses.  `fastapi.HTTPException` raised inside
the `try` is an `Exception` but not an `httpx.HTTPError`, so it is caught by
the second clause and re-raised as a 500. -/
def save_context (now : DateTime) (context : ContextData)
    (net : List (String × Json) → Except String UpstreamResponse) :
    Except HTTPException SaveEnvelope :=
  match saveTry now context net with
  | .ok v => .ok v
  | .error (.httpError m) => .error ⟨500, "HTTP error occurred: " ++ m⟩
  | .error e => .error ⟨500, "Error saving context: " ++ strExc e⟩

/-- The filter list built by `get_context` (`src/main.py` lines 131-135):
Python's `if user_id:` / `if context_type:` are truthiness tests, so a
`None` or empty-string parameter contributes no filter. -/
def queryFilters (user_id context_type : Option String) : List String :=
  (match user_id with
    | none => []
    | some v => if v = "" then [] else ["user_id=eq." ++ v]) ++
  (match context_type with
    | none => []
    | some v => if v = "" then [] else ["context_type=eq." ++ v])

/-- Python's `"&".join`. -/
def joinAmp : List String → String
  | [] => ""
  | [s] => s
  | s :: rest => s ++ "&" ++ joinAmp rest

/-- The URL `get_context` requests (`src/main.py` lines 137-141), with
`base` the configured `SUPABASE_URL`. -/
def buildQueryUrl (base : String) (user_id context_type : Option String)
    (limit : Int) : String :=
  let url := base ++ "/rest/v1/context_vault"
  let filters := queryFilters user_id context_type
  if filters = [] then
    url ++ "?limit=" ++ toString limit ++ "&order=created_at.desc"
  else
    url ++ "?" ++ joinAmp (filters ++
      ["limit=" ++ toString limit, "order=created_at.desc"])

/-- Python `len()` over a JSON value as `get_context` applies it to the
decoded body: defined for arrays, objects and strings, a `TypeError`
otherwise. -/
def pyLen : Json → Except PyExc Nat
  | .arr xs => .ok xs.length
  | .obj fs => .ok fs.length
  | .str s => .ok s.length
  | _ => .error (.typeError "object has no len()")

/-- Body of the `try` block of `get_context` (`src/main.py` lines 119-156).
`net` maps the requested URL to the upstream outcome. -/
def getTry (base : String) (user_id context_type : Option String)
    (limit : Int) (net : String → Except String UpstreamResponse) :
    Except PyExc QueryEnvelope :=
  match net (buildQueryUrl base user_id context_type limit) with
  | .error m => .error (.httpError m)
  | .ok response =>
    if response.status = 200 then
      match response.body with
      | none => .error (.jsonError "Expecting value")
      | some result =>
        match pyLen result with
        | .error e => .error e
        | .ok n => .ok ⟨true, n, result⟩
    else
      .error (.httpException response.status
        ("Failed to retrieve context: " ++ response.text))

/-- The `get_context` handler (`src/main.py` lines 102-161): `try` body plus
the two `except` clauses, with the same internal-`HTTPException`-to-500
rewrapping as `save_context`. -/
def get_context (base : String) (user_id context_type : Option String)
    (limit : Int) (net : String → Except String UpstreamResponse) :
    Except HTTPException QueryEnvelope :=
  match getTry base user_id context_type limit net with
  | .ok v => .ok v
  | .error (.httpError m) => .error ⟨500, "HTTP error occurred: " ++ m⟩
  | .error e => .error ⟨500, "Error retrieving context: " ++ strExc e⟩

/-- Python truthiness of `os.getenv`'s result: `None` and the empty string
are falsy. -/
def envFalsy : Option String → Bool
  | none => true
  | some s => s = ""

/-- The module-level startup check (`src/main.py` lines 21-25): importing the
app raises `ValueError` — so the process never serves — when either variable
is unset or empty. -/
def startupCheck (supabaseUrl supabaseServiceKey : Option String) :
    Except String Unit :=
  if envFalsy supabaseUrl || envFalsy supabaseServiceKey then
    .error "SUPABASE_URL and SUPABASE_SERVICE_KEY must be set"
  else
    .ok ()

/-- `sub` occurs at the head of `l`. -/
def leadsWith : List Char → List Char → Bool
  | [], _ => true
  | _ :: _, [] => false
  | a :: as, b :: bs => a = b && leadsWith as bs

/-- `sub` occurs contiguously somewhere in `l`. -/
def occursIn (sub : List Char) : List Char → Bool
  | [] => leadsWith sub []
  | c :: cs => leadsWith sub (c :: cs) || occursIn sub cs

/-- `sub` is a contiguous substring of `s`. -/
def Contains (s sub : String) : Bool := occursIn sub.data s.data

/-- Data extraction performed by `save_context` on the decoded upstream
body: the first element when the body is a (nonempty) array, the body
itself otherwise. -/
def savedData : Json → Json
  | .arr (x :: _) => x
  | j => j

instance (t : DateTime) : Decidable (ValidDateTime t) := by
  unfold ValidDateTime; infer_instance

/-! ### Helper lemmas for substring reasoning -/

theorem leadsWith_self_app (l t : List Char) : leadsWith l (l ++ t) = true := by
  induction l with
  | nil => rfl
  | cons a as ih => simp [leadsWith, ih]

theorem occursIn_head (m b : List Char) : occursIn m (m ++ b) = true := by
  cases m with
  | nil => cases b <;> simp [occursIn, leadsWith]
  | cons c cs => simp [occursIn, leadsWith, leadsWith_self_app]

theorem occursIn_cons (m : List Char) (c : Char) (l : List Char)
    (h : occursIn m l = true) : occursIn m (c :: l) = true := by
  simp [occursIn, h]

theorem occursIn_app (a m b : List Char) : occursIn m (a ++ (m ++ b)) = true := by
  induction a with
  | nil => exact occursIn_head m b
  | cons c cs ih => exact occursIn_cons _ _ _ ih

theorem contains_of_parts {s t : String} (a b : List Char)
    (h : s.data = a ++ (t.data ++ b)) : Contains s t = true := by
  unfold Contains
  rw [h]
  exact occursIn_app a t.data b

/-! ### Claim theorems -/

/-- C7 counterexample: with both configuration variables present but
`SUPABASE_URL` set to the empty string, startup still fails, refuting the
claim that presence of both suffices for startup to proceed. -/
theorem c7_counterexample :
    startupCheck (some "") (some "service-key") =
      .error "SUPABASE_URL and SUPABASE_SERVICE_KEY must be set" := rfl

/-- C7 (amended): startup proceeds iff both configuration variables are
present with non-empty values; if either is absent or empty the module-level
check raises and the process serves no request. -/
theorem c7_startup_requires_nonempty_config (url key : Option String) :
    startupCheck url key = .ok () ↔
      (∃ u, url = some u ∧ u ≠ "") ∧ (∃ k, key = some k ∧ k ≠ "") := by
  cases url with
  | none => simp [startupCheck, envFalsy]
  | some u =>
    cases key with
    | none => simp [startupCheck, envFalsy]
    | some k =>
      by_cases hu : u = "" <;> by_cases hk : k = "" <;>
        simp [startupCheck, envFalsy, hu, hk]

/-- C7 witness: with both variables set to non-empty strings, startup
proceeds. -/
theorem c7_witness : startupCheck (some "http://s") (some "k") = .ok () :=
  (c7_startup_requires_nonempty_config (some "http://s") (some "k")).mpr
    ⟨⟨"http://s", rfl, by decide⟩, ⟨"k", rfl, by decide⟩⟩

/-- C1 (code bug, evaluated at the failing input): the upstream store
answers a save with status 503 and body "unavailable"; the handler's own
`HTTPException(503, ...)` is caught by its catch-all `except Exception`
clause and re-raised as a generic 500, so the caller sees status 500, not
the upstream's 503. -/
theorem c1_upstream_status_masked :
    save_context ⟨2026, 10, 12, 8, 30, 0, 0⟩ ⟨"u1", "note", [], none⟩
      (fun _ => .ok ⟨503, "unavailable", none⟩) =
      .error ⟨500,
        "Error saving context: 503: Failed to save context: unavailable"⟩ := rfl

/-- C9: a save answered with 200/201 and an empty JSON array body makes
`result[0]` raise `IndexError`, which the catch-all clause converts into a
500 internal error rather than a success envelope. -/
theorem c9_empty_array_internal_error (now : DateTime) (context : ContextData)
    (net : List (String × Json) → Except String UpstreamResponse)
    (r : UpstreamResponse)
    (hnet : net (buildSavePayload now context) = .ok r)
    (hst : r.status = 200 ∨ r.status = 201)
    (hbody : r.body = some (Json.arr [])) :
    save_context now context net =
      .error ⟨500, "Error saving context: list index out of range"⟩ := by
  simp only [save_context, saveTry, hnet]
  rw [if_pos hst]
  simp only [hbody]
  rfl

/-- C9 witness: concrete save with upstream 201 and body `[]`. -/
theorem c9_witness :
    save_context ⟨2026, 10, 12, 8, 30, 0, 0⟩ ⟨"u1", "note", [], none⟩
      (fun _ => .ok ⟨201, "[]", some (Json.arr [])⟩) =
      .error ⟨500, "Error saving context: list index out of range"⟩ :=
  c9_empty_array_internal_error _ _ _ _ rfl (Or.inr rfl) rfl

/-- C3 counterexample: upstream answers 201 (a success status) with body
`[]`, yet the service returns a 500 error rather than the success envelope
the claim promises for every 200/201 upstream response. -/
theorem c3_counterexample :
    save_context ⟨2026, 10, 12, 9, 0, 0, 0⟩ ⟨"u2", "note", [], none⟩
      (fun _ => .ok ⟨200, "[]", some (Json.arr [])⟩) =
      .error ⟨500, "Error saving context: list index out of range"⟩ := rfl

/-- C3 (amended): on upstream 200/201 with a JSON body that is not an empty
array, save returns `{success: true, message: "Context saved successfully",
data: d}` with `d` the first element if the body is an array, else the body
itself. -/
theorem c3_save_success (now : DateTime) (context : ContextData)
    (net : List (String × Json) → Except String UpstreamResponse)
    (r : UpstreamResponse) (j : Json)
    (hnet : net (buildSavePayload now context) = .ok r)
    (hst : r.status = 200 ∨ r.status = 201)
    (hbody : r.body = some j)
    (hne : j ≠ Json.arr []) :
    save_context now context net =
      .ok ⟨true, "Context saved successfully", savedData j⟩ := by
  simp only [save_context, saveTry, hnet]
  rw [if_pos hst]
  simp only [hbody]
  match j, hne with
  | .null, _ => rfl
  | .bool b, _ => rfl
  | .num n, _ => rfl
  | .str s, _ => rfl
  | .obj fs, _ => rfl
  | .arr [], hne => exact absurd rfl hne
  | .arr (x :: xs), _ => rfl

/-- C3 witness: concrete save with upstream 201 and a one-element array
body. -/
theorem c3_witness :
    save_context ⟨2026, 10, 12, 8, 30, 0, 0⟩ ⟨"u1", "note", [], none⟩
      (fun _ => .ok ⟨201, "x", some (Json.arr [Json.str "abc"])⟩) =
      .ok ⟨true, "Context saved successfully",
           savedData (Json.arr [Json.str "abc"])⟩ :=
  c3_save_success _ _ _ _ _ rfl (Or.inr rfl) rfl (by intro h; cases h)

/-- C5: a query answered with status 200 and a JSON array body yields
`{success: true, count: |xs|, data: xs}` with the upstream array passed
through verbatim, in upstream order. -/
theorem c5_query_success (base : String) (uid ct : Option String) (n : Int)
    (net : String → Except String UpstreamResponse)
    (r : UpstreamResponse) (xs : List Json)
    (hnet : net (buildQueryUrl base uid ct n) = .ok r)
    (hst : r.status = 200)
    (hbody : r.body = some (Json.arr xs)) :
    get_context base uid ct n net = .ok ⟨true, xs.length, Json.arr xs⟩ := by
  simp only [get_context, getTry, hnet]
  rw [if_pos hst]
  simp only [hbody]
  rfl

/-- C5 witness: concrete query returning a three-element array. -/
theorem c5_witness :
    get_context "http://s" (some "u1") none 5
      (fun _ => .ok ⟨200, "x",
        some (Json.arr [Json.num 1, Json.num 2, Json.num 3])⟩) =
      .ok ⟨true, 3, Json.arr [Json.num 1, Json.num 2, Json.num 3]⟩ :=
  c5_query_success "http://s" (some "u1") none 5 _ _
    [Json.num 1, Json.num 2, Json.num 3] rfl rfl rfl

/-- C8: the query handler is a pure function of its request parameters and
the upstream interaction — two identical requests served against identical
upstream behaviour produce identical replies (byte-identical `data` and
`count`). -/
theorem c8_query_deterministic (base₁ base₂ : String)
    (uid₁ uid₂ ct₁ ct₂ : Option String) (n₁ n₂ : Int)
    (net₁ net₂ : String → Except String UpstreamResponse)
    (hb : base₁ = base₂) (hu : uid₁ = uid₂) (hc : ct₁ = ct₂) (hn : n₁ = n₂)
    (hnet : net₁ = net₂) :
    get_context base₁ uid₁ ct₁ n₁ net₁ = get_context base₂ uid₂ ct₂ n₂ net₂ := by
  subst hb; subst hu; subst hc; subst hn; subst hnet
  rfl

/-- C8 witness: the determinism theorem applied at a concrete request. -/
theorem c8_witness :
    get_context "http://s" (some "u1") none 10
      (fun _ => .ok ⟨200, "[]", some (Json.arr [])⟩) =
    get_context "http://s" (some "u1") none 10
      (fun _ => .ok ⟨200, "[]", some (Json.arr [])⟩) :=
  c8_query_deterministic _ _ _ _ _ _ _ _ _ _ rfl rfl rfl rfl rfl

/-- Every character produced by `digitChar` is a decimal digit. -/
theorem digitChar_isDigit (d : Nat) : (digitChar d).isDigit = true := by
  unfold digitChar
  have h : d % 10 < 10 := Nat.mod_lt _ (by omega)
  set k := d % 10 with hk
  interval_cases k <;> decide

/-- The service's timestamp rendering always has ISO-8601 shape. -/
theorem isIso8601_isoformat (t : DateTime) : isIso8601 (isoformat t) = true := by
  unfold isIso8601 isoformat
  by_cases h : t.microsecond = 0 <;>
    simp [h, pad4, pad2, pad6, isoShape, allDigits, digitChar_isDigit]

/-- C4: for every valid clock reading and every caller input, the forwarded
payload's `created_at` is exactly the service's ISO-8601 rendering of the
call-time clock — a well-formed ISO-8601 UTC timestamp that does not depend
on the caller's input in any way (the request model has no `created_at`
field for the caller to influence). -/
theorem c4_created_at_service_stamped (now : DateTime) (context : ContextData)
    (_h : ValidDateTime now) :
    lookupField "created_at" (buildSavePayload now context) =
      some (Json.str (isoformat now)) ∧
    isIso8601 (isoformat now) = true ∧
    (∀ context' : ContextData,
      lookupField "created_at" (buildSavePayload now context') =
        lookupField "created_at" (buildSavePayload now context)) := by
  refine ⟨rfl, isIso8601_isoformat now, fun context' => rfl⟩

/-- C4 witness: the timestamp property at a concrete clock reading and
request. -/
theorem c4_witness :
    lookupField "created_at"
      (buildSavePayload ⟨2026, 10, 12, 8, 30, 0, 123456⟩ ⟨"u1", "note", [], none⟩) =
      some (Json.str (isoformat ⟨2026, 10, 12, 8, 30, 0, 123456⟩)) ∧
    isIso8601 (isoformat ⟨2026, 10, 12, 8, 30, 0, 123456⟩) = true :=
  ⟨(c4_created_at_service_stamped ⟨2026, 10, 12, 8, 30, 0, 123456⟩
      ⟨"u1", "note", [], none⟩ (by decide)).1,
   (c4_created_at_service_stamped ⟨2026, 10, 12, 8, 30, 0, 123456⟩
      ⟨"u1", "note", [], none⟩ (by decide)).2.1⟩

/-- C6: when the caller omits `metadata` (pydantic represents both an absent
and a `null` field as `None`), the forwarded payload's `metadata` is the
empty JSON object, never null. -/
theorem c6_metadata_default (now : DateTime) (context : ContextData)
    (h : context.metadata = none) :
    lookupField "metadata" (buildSavePayload now context) =
      some (Json.obj []) := by
  simp [buildSavePayload, lookupField, h]

/-- C6 witness: the default at a concrete request with no metadata. -/
theorem c6_witness :
    lookupField "metadata"
      (buildSavePayload ⟨2026, 10, 12, 8, 30, 0, 0⟩ ⟨"u1", "note", [], none⟩) =
      some (Json.obj []) :=
  c6_metadata_default ⟨2026, 10, 12, 8, 30, 0, 0⟩ ⟨"u1", "note", [], none⟩ rfl

/-! ### String lemmas about the filter components -/

theorem uid_filter_inj (v w : String) :
    ("user_id=eq." ++ v = "user_id=eq." ++ w) ↔ v = w := by
  constructor
  · intro h
    have h2 := congrArg String.data h
    simp [String.data_append] at h2
    exact String.ext h2
  · intro h; rw [h]

theorem ct_filter_inj (v w : String) :
    ("context_type=eq." ++ v = "context_type=eq." ++ w) ↔ v = w := by
  constructor
  · intro h
    have h2 := congrArg String.data h
    simp [String.data_append] at h2
    exact String.ext h2
  · intro h; rw [h]

theorem uid_ne_ct (v w : String) :
    ("user_id=eq." ++ v = "context_type=eq." ++ w) ↔ False := by
  constructor
  · intro h
    have h2 := congrArg String.data h
    simp [String.data_append] at h2
  · intro h; exact h.elim

theorem ct_ne_uid (v w : String) :
    ("context_type=eq." ++ v = "user_id=eq." ++ w) ↔ False := by
  constructor
  · intro h
    have h2 := congrArg String.data h
    simp [String.data_append] at h2
  · intro h; exact h.elim

/-- The `user_id` filter component is in the filter list exactly when
`user_id` was supplied with a non-empty value. -/
theorem mem_queryFilters_uid (uid ct : Option String) (v : String) :
    ("user_id=eq." ++ v) ∈ queryFilters uid ct ↔ (uid = some v ∧ v ≠ "") := by
  cases uid with
  | none =>
    cases ct with
    | none => simp [queryFilters]
    | some w =>
      by_cases hw : w = "" <;> simp [queryFilters, hw, uid_ne_ct]
  | some u =>
    cases ct with
    | none =>
      by_cases hu : u = ""
      · simp [queryFilters, hu]
        exact fun h => h.symm
      · simp [queryFilters, hu, uid_filter_inj, eq_comm]
        rintro rfl
        exact hu
    | some w =>
      by_cases hu : u = "" <;> by_cases hw : w = ""
      · simp [queryFilters, hu, hw]
        exact fun h => h.symm
      · simp [queryFilters, hu, hw, uid_ne_ct]
        rintro rfl
        simp
      · simp [queryFilters, hu, hw, uid_filter_inj, eq_comm]
        rintro rfl
        exact hu
      · simp [queryFilters, hu, hw, uid_filter_inj, uid_ne_ct, ct_ne_uid, eq_comm]
        rintro rfl
        exact hu

/-- The `context_type` filter component is in the filter list exactly when
`context_type` was supplied with a non-empty value. -/
theorem mem_queryFilters_ct (uid ct : Option String) (v : String) :
    ("context_type=eq." ++ v) ∈ queryFilters uid ct ↔ (ct = some v ∧ v ≠ "") := by
  cases ct with
  | none =>
    cases uid with
    | none => simp [queryFilters]
    | some u =>
      by_cases hu : u = "" <;> simp [queryFilters, hu, ct_ne_uid, eq_comm, uid_ne_ct]
  | some w =>
    cases uid with
    | none =>
      by_cases hw : w = ""
      · simp [queryFilters, hw]
        exact fun h => h.symm
      · simp [queryFilters, hw, ct_filter_inj, eq_comm]
        rintro rfl
        exact hw
    | some u =>
      by_cases hu : u = "" <;> by_cases hw : w = ""
      · simp [queryFilters, hu, hw]
        exact fun h => h.symm
      · simp [queryFilters, hu, hw, ct_filter_inj, eq_comm]
        rintro rfl
        exact hw
      · simp [queryFilters, hu, hw, ct_ne_uid]
        rintro rfl
        simp
      · simp [queryFilters, hu, hw, ct_filter_inj, ct_ne_uid, uid_ne_ct, eq_comm]
        rintro rfl
        exact hw

theorem occursIn_nil (l : List Char) : occursIn [] l = true := by
  cases l <;> simp [occursIn, leadsWith]

/-- The filter list always has zero, one or two elements. -/
theorem queryFilters_cases (uid ct : Option String) :
    queryFilters uid ct = [] ∨
    (∃ f, queryFilters uid ct = [f]) ∨
    (∃ f g, queryFilters uid ct = [f, g]) := by
  rcases uid with _ | u <;> rcases ct with _ | w
  · exact Or.inl rfl
  · by_cases hw : w = ""
    · exact Or.inl (by simp [queryFilters, hw])
    · exact Or.inr (Or.inl ⟨"context_type=eq." ++ w, by simp [queryFilters, hw]⟩)
  · by_cases hu : u = ""
    · exact Or.inl (by simp [queryFilters, hu])
    · exact Or.inr (Or.inl ⟨"user_id=eq." ++ u, by simp [queryFilters, hu]⟩)
  · by_cases hu : u = "" <;> by_cases hw : w = ""
    · exact Or.inl (by simp [queryFilters, hu, hw])
    · exact Or.inr (Or.inl ⟨"context_type=eq." ++ w, by simp [queryFilters, hu, hw]⟩)
    · exact Or.inr (Or.inl ⟨"user_id=eq." ++ u, by simp [queryFilters, hu, hw]⟩)
    · exact Or.inr (Or.inr ⟨"user_id=eq." ++ u, "context_type=eq." ++ w,
        by simp [queryFilters, hu, hw]⟩)

/-- Every constructed query URL contains `order=created_at.desc`. -/
theorem url_contains_order (base : String) (uid ct : Option String) (n : Int) :
    Contains (buildQueryUrl base uid ct n) "order=created_at.desc" = true := by
  rcases queryFilters_cases uid ct with h | ⟨f, h⟩ | ⟨f, g, h⟩
  · exact contains_of_parts
      (base.data ++ "/rest/v1/context_vault?limit=".data ++ (toString n).data ++ "&".data) []
      (by simp [buildQueryUrl, h, String.data_append])
  · exact contains_of_parts
      (base.data ++ "/rest/v1/context_vault?".data ++ f.data ++ "&limit=".data ++
        (toString n).data ++ "&".data) []
      (by simp [buildQueryUrl, h, joinAmp, String.data_append])
  · exact contains_of_parts
      (base.data ++ "/rest/v1/context_vault?".data ++ f.data ++ "&".data ++ g.data ++
        "&limit=".data ++ (toString n).data ++ "&".data) []
      (by simp [buildQueryUrl, h, joinAmp, String.data_append])

/-- Every constructed query URL contains `limit=<n>`. -/
theorem url_contains_limit (base : String) (uid ct : Option String) (n : Int) :
    Contains (buildQueryUrl base uid ct n) ("limit=" ++ toString n) = true := by
  rcases queryFilters_cases uid ct with h | ⟨f, h⟩ | ⟨f, g, h⟩
  · exact contains_of_parts
      (base.data ++ "/rest/v1/context_vault?".data) ("&order=created_at.desc".data)
      (by simp [buildQueryUrl, h, String.data_append])
  · exact contains_of_parts
      (base.data ++ "/rest/v1/context_vault?".data ++ f.data ++ "&".data)
      ("&order=created_at.desc".data)
      (by simp [buildQueryUrl, h, joinAmp, String.data_append])
  · exact contains_of_parts
      (base.data ++ "/rest/v1/context_vault?".data ++ f.data ++ "&".data ++ g.data ++
        "&".data)
      ("&order=created_at.desc".data)
      (by simp [buildQueryUrl, h, joinAmp, String.data_append])

/-- When `user_id` is supplied non-empty, the URL splits around the verbatim
`user_id=eq.<v>` component. -/
theorem uidFilter_split (base : String) (ct : Option String) (n : Int)
    (v : String) (hv : v ≠ "") :
    ∃ p q : List Char, (buildQueryUrl base (some v) ct n).data =
      p ++ ("user_id=eq.".data ++ (v.data ++ q)) := by
  rcases ct with _ | w
  · exact ⟨base.data ++ "/rest/v1/context_vault?".data,
      "&limit=".data ++ ((toString n).data ++ "&order=created_at.desc".data),
      by simp [buildQueryUrl, queryFilters, hv, joinAmp, String.data_append]⟩
  · by_cases hw : w = ""
    · exact ⟨base.data ++ "/rest/v1/context_vault?".data,
        "&limit=".data ++ ((toString n).data ++ "&order=created_at.desc".data),
        by simp [buildQueryUrl, queryFilters, hv, hw, joinAmp, String.data_append]⟩
    · exact ⟨base.data ++ "/rest/v1/context_vault?".data,
        "&context_type=eq.".data ++ (w.data ++ ("&limit=".data ++
          ((toString n).data ++ "&order=created_at.desc".data))),
        by simp [buildQueryUrl, queryFilters, hv, hw, joinAmp, String.data_append]⟩

/-- When `context_type` is supplied non-empty, the URL splits around the
verbatim `context_type=eq.<v>` component. -/
theorem ctFilter_split (base : String) (uid : Option String) (n : Int)
    (v : String) (hv : v ≠ "") :
    ∃ p q : List Char, (buildQueryUrl base uid (some v) n).data =
      p ++ ("context_type=eq.".data ++ (v.data ++ q)) := by
  rcases uid with _ | u
  · exact ⟨base.data ++ "/rest/v1/context_vault?".data,
      "&limit=".data ++ ((toString n).data ++ "&order=created_at.desc".data),
      by simp [buildQueryUrl, queryFilters, hv, joinAmp, String.data_append]⟩
  · by_cases hu : u = ""
    · exact ⟨base.data ++ "/rest/v1/context_vault?".data,
        "&limit=".data ++ ((toString n).data ++ "&order=created_at.desc".data),
        by simp [buildQueryUrl, queryFilters, hv, hu, joinAmp, String.data_append]⟩
    · exact ⟨base.data ++ "/rest/v1/context_vault?user_id=eq.".data ++ (u.data ++ "&".data),
        "&limit=".data ++ ((toString n).data ++ "&order=created_at.desc".data),
        by simp [buildQueryUrl, queryFilters, hv, hu, joinAmp, String.data_append]⟩

theorem url_contains_uid_filter (base : String) (uid ct : Option String) (n : Int)
    (v : String) (huid : uid = some v) (hv : v ≠ "") :
    Contains (buildQueryUrl base uid ct n) ("user_id=eq." ++ v) = true := by
  subst huid
  obtain ⟨p, q, hEq⟩ := uidFilter_split base ct n v hv
  exact contains_of_parts p q (by rw [hEq]; simp [String.data_append])

theorem url_contains_ct_filter (base : String) (uid ct : Option String) (n : Int)
    (v : String) (hct : ct = some v) (hv : v ≠ "") :
    Contains (buildQueryUrl base uid ct n) ("context_type=eq." ++ v) = true := by
  subst hct
  obtain ⟨p, q, hEq⟩ := ctFilter_split base uid n v hv
  exact contains_of_parts p q (by rw [hEq]; simp [String.data_append])

theorem url_contains_uid_value (base : String) (uid ct : Option String) (n : Int)
    (v : String) (huid : uid = some v) :
    Contains (buildQueryUrl base uid ct n) v = true := by
  subst huid
  by_cases hv : v = ""
  · subst hv; exact occursIn_nil _
  · obtain ⟨p, q, hEq⟩ := uidFilter_split base ct n v hv
    exact contains_of_parts (p ++ "user_id=eq.".data) q
      (by rw [hEq]; simp [String.data_append])

theorem url_contains_ct_value (base : String) (uid ct : Option String) (n : Int)
    (v : String) (hct : ct = some v) :
    Contains (buildQueryUrl base uid ct n) v = true := by
  subst hct
  by_cases hv : v = ""
  · subst hv; exact occursIn_nil _
  · obtain ⟨p, q, hEq⟩ := ctFilter_split base uid n v hv
    exact contains_of_parts (p ++ "context_type=eq.".data) q
      (by rw [hEq]; simp [String.data_append])

/-- C2 counterexample: `user_id` supplied as the empty string is dropped by
the truthiness test `if user_id:`, so the constructed URL does not contain
`user_id=eq.` — refuting the claim's "including when the supplied value is
the empty string". -/
theorem c2_counterexample :
    Contains (buildQueryUrl "http://s" (some "") none 10) "user_id=eq." = false := by
  decide

/-- C2 (amended): the filter component `user_id=eq.<v>` is part of the
constructed query iff `user_id` was supplied with a NON-EMPTY value (and
likewise `context_type=eq.<v>` for `context_type`); when included, the
component appears verbatim as a substring of the URL; the URL always
contains `limit=<n>` and `order=created_at.desc`. -/
theorem c2_query_string_construction (base : String) (uid ct : Option String)
    (n : Int) :
    (∀ v, ("user_id=eq." ++ v) ∈ queryFilters uid ct ↔ (uid = some v ∧ v ≠ "")) ∧
    (∀ v, ("context_type=eq." ++ v) ∈ queryFilters uid ct ↔ (ct = some v ∧ v ≠ "")) ∧
    (∀ v, uid = some v → v ≠ "" →
      Contains (buildQueryUrl base uid ct n) ("user_id=eq." ++ v) = true) ∧
    (∀ v, ct = some v → v ≠ "" →
      Contains (buildQueryUrl base uid ct n) ("context_type=eq." ++ v) = true) ∧
    Contains (buildQueryUrl base uid ct n) ("limit=" ++ toString n) = true ∧
    Contains (buildQueryUrl base uid ct n) "order=created_at.desc" = true :=
  ⟨fun v => mem_queryFilters_uid uid ct v,
   fun v => mem_queryFilters_ct uid ct v,
   fun v h hv => url_contains_uid_filter base uid ct n v h hv,
   fun v h hv => url_contains_ct_filter base uid ct n v h hv,
   url_contains_limit base uid ct n,
   url_contains_order base uid ct n⟩

/-- C2 witness: a concrete query with `user_id=u1` supplied and `limit=5`. -/
theorem c2_witness :
    Contains (buildQueryUrl "http://s" (some "u1") none 5) ("user_id=eq." ++ "u1") = true ∧
    Contains (buildQueryUrl "http://s" (some "u1") none 5) ("limit=" ++ toString (5 : Int)) = true ∧
    Contains (buildQueryUrl "http://s" (some "u1") none 5) "order=created_at.desc" = true :=
  ⟨(c2_query_string_construction "http://s" (some "u1") none 5).2.2.1 "u1" rfl (by decide),
   (c2_query_string_construction "http://s" (some "u1") none 5).2.2.2.2.1,
   (c2_query_string_construction "http://s" (some "u1") none 5).2.2.2.2.2⟩

/-- C10: every supplied filter value is embedded character-for-character in
the constructed URL with no escaping, and in particular a value containing
`&` and `=` injects what parses upstream as an extra query parameter: with
`user_id = "a&context_type=eq.b"` and `context_type` NOT supplied, the URL
still contains `context_type=eq.b`. -/
theorem c10_verbatim_interpolation :
    (∀ (base : String) (uid ct : Option String) (n : Int) (v : String),
      uid = some v ∨ ct = some v →
      Contains (buildQueryUrl base uid ct n) v = true) ∧
    Contains (buildQueryUrl "http://s" (some "a&context_type=eq.b") none 10)
      "context_type=eq.b" = true := by
  constructor
  · intro base uid ct n v h
    rcases h with h | h
    · exact url_contains_uid_value base uid ct n v h
    · exact url_contains_ct_value base uid ct n v h
  · decide

/-- C10 witness: the verbatim-embedding property at a concrete supplied
value. -/
theorem c10_witness :
    Contains (buildQueryUrl "http://s" (some "u1") none 10) "u1" = true :=
  c10_verbatim_interpolation.1 "http://s" (some "u1") none 10 "u1" (Or.inl rfl)
